import Mathlib

set_option maxRecDepth 100000

/-!
Verification of the `openai-ox` chat client against its natural-language
specification.  The development shallowly embeds the relevant Rust source:

* the serde data model of streamed chat chunks (`src/chat/mod.rs`,
  `ChatCompletionChunkResponse`, `ChoiceStreamed`, `Delta`, `FinishReason`)
  together with the JSON encoding/decoding that the serde derives produce;
* the event-consuming loop spawned by `ChatCompletionRequest::stream`
  (`src/chat/mod.rs` lines 352-377);
* the non-streaming send paths (`ChatCompletionRequest::send`,
  `SpeechRequest::send`) and the error envelope of `src/lib.rs`;
* the speech request builder (`src/audio/speech.rs`).

JSON values are modelled by the inductive `Json` below; numbers are modelled
as integers (the fields of the embedded types are integral, and no claim
touches floating point payloads).  Machine integers (`u32`, `u64`) are
modelled as `Nat`; no arithmetic is performed on them in the embedded code.
-/

/-- A JSON value as held by `serde_json::Value`, with numbers restricted to
integers (all numeric fields of the embedded types are `u32`/`u64`). -/
inductive Json where
  | null
  | bool (b : Bool)
  | num (n : Int)
  | str (s : String)
  | arr (elems : List Json)
  | obj (fields : List (String × Json))

/-- Field access on a JSON object: the value under the first occurrence of
`key`, or `none` when absent or when the value is not an object.  This is how
the serde-derived deserializers of the embedded structs locate their fields. -/
def Json.lookup (j : Json) (key : String) : Option Json :=
  match j with
  | .obj fields => List.lookup key fields
  | _ => none

/-! ### A JSON text parser, modelling `serde_json::from_str`

Fuel-based recursive descent over the character list.  Escapes cover the
single-character forms; `\u` escapes and float literals are left out of the
model (no embedded field carries them in any claim). -/

/-- Whitespace accepted between JSON tokens, by code point. -/
def jsonWs (c : Char) : Bool :=
  [32, 10, 9, 13].contains c.toNat

/-- Drop leading JSON whitespace. -/
def dropWs : List Char → List Char
  | [] => []
  | c :: cs => bif jsonWs c then dropWs cs else c :: cs

/-- The character denoted by a single-character escape sequence: the three
self-representing ones, then the control characters by code point. -/
def escapeChar (e : Char) : Option Char :=
  if e = '"' ∨ e = '\\' ∨ e = '/' then some e
  else if e = 'n' then some (Char.ofNat 10)
  else if e = 't' then some (Char.ofNat 9)
  else if e = 'r' then some (Char.ofNat 13)
  else if e = 'b' then some (Char.ofNat 8)
  else if e = 'f' then some (Char.ofNat 12)
  else none

/-- Read the body of a string literal up to the closing quote, returning the
decoded characters and the remaining input. -/
def readStringBody : List Char → Option (List Char × List Char)
  | [] => none
  | c :: cs =>
    if c = '"' then some ([], cs)
    else if c = '\\' then
      match cs with
      | [] => none
      | e :: cs2 =>
        match escapeChar e with
        | none => none
        | some ch =>
          match readStringBody cs2 with
          | none => none
          | some (body, rest) => some (ch :: body, rest)
    else
      match readStringBody cs with
      | none => none
      | some (body, rest) => some (c :: body, rest)

/-- Accumulate decimal digits into a natural number. -/
def readDigits (acc : Nat) : List Char → Nat × List Char
  | c :: cs =>
    if c.isDigit then readDigits (acc * 10 + (c.toNat - 48)) cs else (acc, c :: cs)
  | [] => (acc, [])

/-- The opening brace character of a JSON object. -/
def objOpen : Char := Char.ofNat 123

/-- The closing brace character of a JSON object. -/
def objClose : Char := Char.ofNat 125

mutual

/-- Parse one JSON value; returns it with the unconsumed input. -/
def readValue : Nat → List Char → Option (Json × List Char)
  | 0, _ => none
  | fuel + 1, input =>
    match dropWs input with
    | 'n' :: 'u' :: 'l' :: 'l' :: rest => some (.null, rest)
    | 't' :: 'r' :: 'u' :: 'e' :: rest => some (.bool true, rest)
    | 'f' :: 'a' :: 'l' :: 's' :: 'e' :: rest => some (.bool false, rest)
    | '"' :: rest =>
      match readStringBody rest with
      | some (body, rest2) => some (.str (String.mk body), rest2)
      | none => none
    | '[' :: rest =>
      (match dropWs rest with
       | ']' :: rest2 => some (.arr [], rest2)
       | rest2 =>
         match readElems fuel rest2 with
         | some (elems, rest3) => some (.arr elems, rest3)
         | none => none)
    | '-' :: rest =>
      (match rest with
       | c :: _ =>
         if c.isDigit then
           let (n, rest2) := readDigits 0 rest
           some (.num (-(Int.ofNat n)), rest2)
         else none
       | [] => none)
    | c :: rest =>
      if c = objOpen then
        match dropWs rest with
        | c2 :: rest2 =>
          if c2 = objClose then some (.obj [], rest2)
          else
            (match readMembers fuel (c2 :: rest2) with
             | some (fields, rest3) => some (.obj fields, rest3)
             | none => none)
        | [] => none
      else if c.isDigit then
        let (n, rest2) := readDigits 0 (c :: rest)
        some (.num (Int.ofNat n), rest2)
      else none
    | [] => none

/-- Parse a comma-separated list of values up to the closing bracket. -/
def readElems : Nat → List Char → Option (List Json × List Char)
  | 0, _ => none
  | fuel + 1, input =>
    match readValue fuel input with
    | none => none
    | some (v, rest) =>
      match dropWs rest with
      | ',' :: rest2 =>
        (match readElems fuel rest2 with
         | some (vs, rest3) => some (v :: vs, rest3)
         | none => none)
      | ']' :: rest2 => some ([v], rest2)
      | _ => none

/-- Parse a comma-separated list of object members up to the closing brace. -/
def readMembers : Nat → List Char → Option (List (String × Json) × List Char)
  | 0, _ => none
  | fuel + 1, input =>
    match dropWs input with
    | '"' :: rest =>
      (match readStringBody rest with
       | none => none
       | some (key, rest2) =>
         match dropWs rest2 with
         | ':' :: rest3 =>
           (match readValue fuel rest3 with
            | none => none
            | some (v, rest4) =>
              match dropWs rest4 with
              | ',' :: rest5 =>
                (match readMembers fuel rest5 with
                 | some (fields, rest6) => some ((String.mk key, v) :: fields, rest6)
                 | none => none)
              | c :: rest5 =>
                if c = objClose then some ([(String.mk key, v)], rest5) else none
              | [] => none)
         | _ => none)
    | _ => none

end

/-- Parse a complete JSON document (value followed only by whitespace),
modelling `serde_json::from_str`'s requirement that the input be consumed. -/
def parseJson (s : String) : Option Json :=
  match readValue (2 * s.length + 16) s.data with
  | some (v, rest) => if dropWs rest = [] then some v else none
  | none => none

/-! ### The streamed chunk data model (`src/chat/mod.rs` lines 234-315)

Field and constructor names follow the Rust source.  Serialization and
deserialization functions spell out what the `#[derive(Serialize,
Deserialize)]` attributes generate for these types. -/

/-- `FinishReason` (`src/chat/mod.rs` lines 234-241), serialized with
`rename_all = "snake_case"`. -/
inductive FinishReason where
  | Stop
  | Limit
  | ContentFilter
  | ToolCalls
deriving DecidableEq

/-- `Delta` (`src/chat/mod.rs` lines 251-254). -/
structure Delta where
  content : Option String
deriving DecidableEq

/-- `ChoiceStreamed` (`src/chat/mod.rs` lines 256-262).  `index` is a `u32`,
modelled as `Nat`; `logprobs` is an `Option<serde_json::Value>`. -/
structure ChoiceStreamed where
  index : Nat
  delta : Delta
  finish_reason : Option FinishReason
  logprobs : Option Json

/-- `ChatCompletionChunkResponse` (`src/chat/mod.rs` lines 297-305).
`created` is a `u64`, modelled as `Nat`; `system_fingerprint` is a plain
`String`, not an `Option`. -/
structure ChatCompletionChunkResponse where
  id : String
  choices : List ChoiceStreamed
  created : Nat
  model : String
  system_fingerprint : String
  object : String

/-! ### Serialization (the derived `Serialize` impls) -/

/-- Serialization of `FinishReason` under `rename_all = "snake_case"`. -/
def FinishReason.toJson : FinishReason → Json
  | .Stop => .str "stop"
  | .Limit => .str "limit"
  | .ContentFilter => .str "content_filter"
  | .ToolCalls => .str "tool_calls"

/-- How serde serializes an `Option<String>` field without skip attributes:
`None` becomes JSON `null`. -/
def optStrToJson : Option String → Json
  | none => .null
  | some s => .str s

/-- `Option<FinishReason>` serialization: `None` becomes `null`. -/
def optFinishReasonToJson : Option FinishReason → Json
  | none => .null
  | some fr => fr.toJson

/-- `Option<serde_json::Value>` serialization: `None` becomes `null`, while
`Some(v)` serializes `v` itself. -/
def optValueToJson : Option Json → Json
  | none => .null
  | some v => v

/-- The derived `Serialize` for `Delta`. -/
def Delta.toJson (d : Delta) : Json :=
  .obj [("content", optStrToJson d.content)]

/-- The derived `Serialize` for `ChoiceStreamed`: fields in declaration
order, no skip attributes. -/
def ChoiceStreamed.toJson (c : ChoiceStreamed) : Json :=
  .obj [("index", .num (Int.ofNat c.index)),
        ("delta", c.delta.toJson),
        ("finish_reason", optFinishReasonToJson c.finish_reason),
        ("logprobs", optValueToJson c.logprobs)]

/-- The derived `Serialize` for `ChatCompletionChunkResponse`: fields in
declaration order. -/
def ChatCompletionChunkResponse.toJson (r : ChatCompletionChunkResponse) : Json :=
  .obj [("id", .str r.id),
        ("choices", .arr (r.choices.map ChoiceStreamed.toJson)),
        ("created", .num (Int.ofNat r.created)),
        ("model", .str r.model),
        ("system_fingerprint", .str r.system_fingerprint),
        ("object", .str r.object)]

/-! ### Deserialization (the derived `Deserialize` impls)

serde derive semantics: unknown fields are ignored, a missing `Option` field
defaults to `None`, `null` deserializes an `Option` to `None`, and a missing
required field is an error. -/

/-- Deserialize a JSON value into a Rust `String`. -/
def getStr : Json → Option String
  | .str s => some s
  | _ => none

/-- Deserialize a JSON value into an unsigned integer (`u32`/`u64`):
only non-negative integer numbers are accepted. -/
def getNat : Json → Option Nat
  | .num (Int.ofNat n) => some n
  | _ => none

/-- Deserialize an optional `String` field from its lookup result: a missing
field or `null` gives `None`. -/
def getOptStr : Option Json → Option (Option String)
  | none => some none
  | some .null => some none
  | some (.str s) => some (some s)
  | some _ => none

/-- Deserialize an optional `serde_json::Value` field from its lookup
result: a missing field or `null` gives `None`, anything else is kept. -/
def getOptValue : Option Json → Option (Option Json)
  | none => some none
  | some .null => some none
  | some (.bool b) => some (some (.bool b))
  | some (.num n) => some (some (.num n))
  | some (.str s) => some (some (.str s))
  | some (.arr elems) => some (some (.arr elems))
  | some (.obj fields) => some (some (.obj fields))

/-- The derived `Deserialize` for `FinishReason`. -/
def FinishReason.fromJson : Json → Option FinishReason
  | .str "stop" => some .Stop
  | .str "limit" => some .Limit
  | .str "content_filter" => some .ContentFilter
  | .str "tool_calls" => some .ToolCalls
  | _ => none

/-- Deserialize an optional `FinishReason` field from its lookup result. -/
def getOptFinishReason : Option Json → Option (Option FinishReason)
  | none => some none
  | some .null => some none
  | some v => (FinishReason.fromJson v).map some

/-- Deserialize every element of a list, failing if any element fails — the
shape of serde's `Vec<T>` deserialization. -/
def deserializeEach (f : Json → Option α) : List Json → Option (List α)
  | [] => some []
  | x :: xs =>
    match f x, deserializeEach f xs with
    | some y, some ys => some (y :: ys)
    | _, _ => none

/-- The derived `Deserialize` for `Delta`. -/
def Delta.fromJson (j : Json) : Option Delta :=
  match j with
  | .obj _ => (getOptStr (j.lookup "content")).map Delta.mk
  | _ => none

/-- The derived `Deserialize` for `ChoiceStreamed`. -/
def ChoiceStreamed.fromJson (j : Json) : Option ChoiceStreamed :=
  match j with
  | .obj _ =>
    ((j.lookup "index").bind getNat).bind fun idx =>
    ((j.lookup "delta").bind Delta.fromJson).bind fun d =>
    (getOptFinishReason (j.lookup "finish_reason")).bind fun fr =>
    (getOptValue (j.lookup "logprobs")).bind fun lp =>
    some ⟨idx, d, fr, lp⟩
  | _ => none

/-- Deserialize a `Vec<ChoiceStreamed>` field. -/
def choicesFromJson : Json → Option (List ChoiceStreamed)
  | .arr elems => deserializeEach ChoiceStreamed.fromJson elems
  | _ => none

/-- The derived `Deserialize` for `ChatCompletionChunkResponse`.  Every field
is required except through the `Option` defaults handled above; in
particular `system_fingerprint` must be present as a string. -/
def ChatCompletionChunkResponse.fromJson (j : Json) : Option ChatCompletionChunkResponse :=
  match j with
  | .obj _ =>
    ((j.lookup "id").bind getStr).bind fun id =>
    ((j.lookup "choices").bind choicesFromJson).bind fun choices =>
    ((j.lookup "created").bind getNat).bind fun created =>
    ((j.lookup "model").bind getStr).bind fun model =>
    ((j.lookup "system_fingerprint").bind getStr).bind fun fp =>
    ((j.lookup "object").bind getStr).bind fun ob =>
    some ⟨id, choices, created, model, fp, ob⟩
  | _ => none

/-- `serde_json::from_str::<ChatCompletionChunkResponse>`: parse the text,
then deserialize. -/
def chunkFromStr (s : String) : Option ChatCompletionChunkResponse :=
  (parseJson s).bind ChatCompletionChunkResponse.fromJson

/-! ### `From<ChatCompletionChunkResponse> for String`
(`src/chat/mod.rs` lines 307-315) -/

/-- The `From` impl: iterate over the choices, take each delta's content with
`unwrap_or_default`, and collect into one `String` (a left fold appending
each piece). -/
def chunkToString (r : ChatCompletionChunkResponse) : String :=
  r.choices.foldl (fun acc c => acc ++ c.delta.content.getD "") ""

/-! ### The streaming event loop (`src/chat/mod.rs` lines 352-377)

`ChatCompletionRequest::stream` spawns a task that pulls events from a
`reqwest_eventsource::EventSource` and forwards decoded chunks over an
unbounded channel; the function's return value is the receiving end of that
channel.  The loop is embedded as a function from the finite list of items
the event source produces to the list of values sent over the channel.
`es.close()` makes the following `es.next()` call return `None`, so the loop
body never runs again after the `"[DONE]"` branch. -/

/-- A `reqwest_eventsource::Event`: either the open notification or a
message carrying its `data` text. -/
inductive Event where
  | opened
  | message (data : String)

/-- One item produced by the event source: an event or a transport-level
error (carrying its rendering, which the loop only prints). -/
inductive EsItem where
  | ok (e : Event)
  | err (description : String)

/-- The spawned loop of `ChatCompletionRequest::stream`: the list of chunks
sent to the channel (hence yielded to the caller, in order) for a given list
of event-source items.  Messages equal to `"[DONE]"` close the source and end
the loop; empty messages, undecodable messages, transport errors and open
events send nothing. -/
def streamLoop : List EsItem → List ChatCompletionChunkResponse
  | [] => []
  | .ok (.message data) :: rest =>
    if data = "[DONE]" then []
    else if data = "" then streamLoop rest
    else
      match chunkFromStr data with
      | some json => json :: streamLoop rest
      | none => streamLoop rest
  | .ok .opened :: rest => streamLoop rest
  | .err _ :: rest => streamLoop rest

/-! ### The message data model (`src/chat/message.rs`)

Only the `Deserialize` direction is embedded: it is what the non-streaming
send path needs.  `Message` and `MultimodalContent` are internally tagged
enums (`#[serde(tag = "role")]` and `#[serde(tag = "type")]`): serde reads
the tag from the map, removes that entry, and deserializes the chosen
variant from the remaining entries. -/

/-- `Role` (`src/chat/message.rs` lines 11-18), `rename_all = "lowercase"`. -/
inductive Role where
  | System
  | User
  | Assistant
  | Tool
deriving DecidableEq

/-- `Text` (`src/chat/message.rs` lines 20-23). -/
structure Text where
  text : String

/-- `MultimodalContent` (`src/chat/message.rs` lines 53-60): internally
tagged by `"type"`, single variant `Text` renamed to `"text"`. -/
inductive MultimodalContent where
  | Text (t : Text)

/-- `SystemMessage` (`src/chat/message.rs` lines 62-70): it declares its own
`role: Role` field besides being a tag-dispatched variant of `Message`. -/
structure SystemMessage where
  role : Role
  content : List MultimodalContent
  name : Option String

/-- `UserMessage` (`src/chat/message.rs` lines 98-105). -/
structure UserMessage where
  role : Role
  content : List MultimodalContent
  name : Option String

/-- `AssistantMessage` (`src/chat/message.rs` lines 147-158): `content` has
`#[serde(default)]`, so a missing field becomes the empty vector. -/
structure AssistantMessage where
  content : List MultimodalContent
  name : Option String
  tool_calls : Option (List Json)
  refusal : Option String

/-- `ToolMessage` (`src/chat/message.rs` lines 160-165). -/
structure ToolMessage where
  content : List MultimodalContent
  tool_call_id : String

/-- `Message` (`src/chat/message.rs` lines 167-175): internally tagged by
`"role"`, variants renamed to lowercase. -/
inductive Message where
  | System (m : SystemMessage)
  | User (m : UserMessage)
  | Assistant (m : AssistantMessage)
  | Tool (m : ToolMessage)

/-- Remove one key from a JSON object: what internal tagging does to the map
before handing it to the variant deserializer. -/
def Json.removeKey (j : Json) (key : String) : Json :=
  match j with
  | .obj fields => .obj (fields.filter (fun p => p.1 != key))
  | _ => j

/-- The derived `Deserialize` for `Role`. -/
def Role.fromJson : Json → Option Role
  | .str "system" => some .System
  | .str "user" => some .User
  | .str "assistant" => some .Assistant
  | .str "tool" => some .Tool
  | _ => none

/-- The derived `Deserialize` for `Text`. -/
def Text.fromJson (j : Json) : Option Text :=
  match j with
  | .obj _ => ((j.lookup "text").bind getStr).map Text.mk
  | _ => none

/-- The derived `Deserialize` for `MultimodalContent`: dispatch on the
`"type"` tag, then deserialize `Text` from the remaining entries. -/
def MultimodalContent.fromJson (j : Json) : Option MultimodalContent :=
  ((j.lookup "type").bind getStr).bind fun tag =>
  match tag with
  | "text" => (Text.fromJson (j.removeKey "type")).map MultimodalContent.Text
  | _ => none

/-- Deserialize an optional `Vec<serde_json::Value>` field from its lookup
result (for `tool_calls`). -/
def getOptVecValue : Option Json → Option (Option (List Json))
  | none => some none
  | some .null => some none
  | some (.arr elems) => some (some elems)
  | some _ => none

/-- Deserialize a `Vec<T>` field value: it must be a JSON array whose every
element deserializes. -/
def vecFromJson (f : Json → Option α) : Json → Option (List α)
  | .arr elems => deserializeEach f elems
  | _ => none

/-- The derived `Deserialize` for `SystemMessage`.  Its `role` field is
required, but internal tagging of `Message` has already removed the
`"role"` entry, so deserialization through `Message` always fails here. -/
def SystemMessage.fromJson (j : Json) : Option SystemMessage :=
  match j with
  | .obj _ =>
    ((j.lookup "role").bind Role.fromJson).bind fun role =>
    ((j.lookup "content").bind (vecFromJson MultimodalContent.fromJson)).bind fun content =>
    (getOptStr (j.lookup "name")).bind fun nm =>
    some ⟨role, content, nm⟩
  | _ => none

/-- The derived `Deserialize` for `UserMessage` (same shape as
`SystemMessage`). -/
def UserMessage.fromJson (j : Json) : Option UserMessage :=
  match j with
  | .obj _ =>
    ((j.lookup "role").bind Role.fromJson).bind fun role =>
    ((j.lookup "content").bind (vecFromJson MultimodalContent.fromJson)).bind fun content =>
    (getOptStr (j.lookup "name")).bind fun nm =>
    some ⟨role, content, nm⟩
  | _ => none

/-- The derived `Deserialize` for `AssistantMessage`: a missing `content`
defaults to the empty vector. -/
def AssistantMessage.fromJson (j : Json) : Option AssistantMessage :=
  match j with
  | .obj _ =>
    (match j.lookup "content" with
     | none => some []
     | some v => vecFromJson MultimodalContent.fromJson v).bind fun content =>
    (getOptStr (j.lookup "name")).bind fun nm =>
    (getOptVecValue (j.lookup "tool_calls")).bind fun tc =>
    (getOptStr (j.lookup "refusal")).bind fun refusal =>
    some ⟨content, nm, tc, refusal⟩
  | _ => none

/-- The derived `Deserialize` for `ToolMessage`. -/
def ToolMessage.fromJson (j : Json) : Option ToolMessage :=
  match j with
  | .obj _ =>
    ((j.lookup "content").bind (vecFromJson MultimodalContent.fromJson)).bind fun content =>
    ((j.lookup "tool_call_id").bind getStr).bind fun tcid =>
    some ⟨content, tcid⟩
  | _ => none

/-- The derived `Deserialize` for `Message`: read the `"role"` tag, remove
it, and deserialize the matching variant from the rest. -/
def Message.fromJson (j : Json) : Option Message :=
  ((j.lookup "role").bind getStr).bind fun tag =>
  match tag with
  | "system" => (SystemMessage.fromJson (j.removeKey "role")).map Message.System
  | "user" => (UserMessage.fromJson (j.removeKey "role")).map Message.User
  | "assistant" => (AssistantMessage.fromJson (j.removeKey "role")).map Message.Assistant
  | "tool" => (ToolMessage.fromJson (j.removeKey "role")).map Message.Tool
  | _ => none

/-! ### The non-streaming response model (`src/chat/mod.rs` lines 243-280) -/

/-- `Choice` (`src/chat/mod.rs` lines 243-249): note `finish_reason` is
required here, unlike in `ChoiceStreamed`. -/
structure Choice where
  index : Nat
  message : Message
  finish_reason : FinishReason
  logprobs : Option Json

/-- `Usage` (`src/chat/mod.rs` lines 264-269); the three counters are `u32`. -/
structure Usage where
  prompt_tokens : Nat
  completion_tokens : Nat
  total_tokens : Nat

/-- `ChatCompletionResponse` (`src/chat/mod.rs` lines 271-280). -/
structure ChatCompletionResponse where
  id : String
  choices : List Choice
  created : Nat
  model : String
  system_fingerprint : String
  object : String
  usage : Usage

/-- The derived `Deserialize` for `Choice`. -/
def Choice.fromJson (j : Json) : Option Choice :=
  match j with
  | .obj _ =>
    ((j.lookup "index").bind getNat).bind fun idx =>
    ((j.lookup "message").bind Message.fromJson).bind fun msg =>
    ((j.lookup "finish_reason").bind FinishReason.fromJson).bind fun fr =>
    (getOptValue (j.lookup "logprobs")).bind fun lp =>
    some ⟨idx, msg, fr, lp⟩
  | _ => none

/-- The derived `Deserialize` for `Usage`. -/
def Usage.fromJson (j : Json) : Option Usage :=
  match j with
  | .obj _ =>
    ((j.lookup "prompt_tokens").bind getNat).bind fun p =>
    ((j.lookup "completion_tokens").bind getNat).bind fun c =>
    ((j.lookup "total_tokens").bind getNat).bind fun t =>
    some ⟨p, c, t⟩
  | _ => none

/-- The derived `Deserialize` for `ChatCompletionResponse`. -/
def ChatCompletionResponse.fromJson (j : Json) : Option ChatCompletionResponse :=
  match j with
  | .obj _ =>
    ((j.lookup "id").bind getStr).bind fun id =>
    ((j.lookup "choices").bind (vecFromJson Choice.fromJson)).bind fun choices =>
    ((j.lookup "created").bind getNat).bind fun created =>
    ((j.lookup "model").bind getStr).bind fun model =>
    ((j.lookup "system_fingerprint").bind getStr).bind fun fp =>
    ((j.lookup "object").bind getStr).bind fun ob =>
    ((j.lookup "usage").bind Usage.fromJson).bind fun usage =>
    some ⟨id, choices, created, model, fp, ob, usage⟩
  | _ => none

/-! ### The error envelope and error type (`src/lib.rs`) -/

/-- `ApiErrorDetail` (`src/lib.rs`): `message` is required; `param` and
`code` carry `#[serde(default)]`, so a missing entry gives `None`. -/
structure ApiErrorDetail where
  message : String
  param : Option String
  code : Option String

/-- `ErrorResponse` (`src/lib.rs`): the envelope `\x7berror: \x7bmessage,
param?, code?\x7d\x7d` of non-2xx responses. -/
structure ErrorResponse where
  error : ApiErrorDetail

/-- The derived `Deserialize` for `ApiErrorDetail`. -/
def ApiErrorDetail.fromJson (j : Json) : Option ApiErrorDetail :=
  match j with
  | .obj _ =>
    ((j.lookup "message").bind getStr).bind fun msg =>
    (getOptStr (j.lookup "param")).bind fun param =>
    (getOptStr (j.lookup "code")).bind fun code =>
    some ⟨msg, param, code⟩
  | _ => none

/-- The derived `Deserialize` for `ErrorResponse`. -/
def ErrorResponse.fromJson (j : Json) : Option ErrorResponse :=
  match j with
  | .obj _ => ((j.lookup "error").bind ApiErrorDetail.fromJson).map ErrorResponse.mk
  | _ => none

/-- `ApiRequestError` (`src/lib.rs`).  The wrapped foreign errors are
modelled by their display strings. -/
inductive ApiRequestError where
  | ReqwestError (description : String)
  | SerdeError (description : String)
  | EventSourceError (description : String)
  | InvalidRequestError (message : String) (param : Option String) (code : Option String)
  | UnexpectedResponse (response : String)

/-- `res.json::<T>()`: parse the body text as JSON, then deserialize. -/
def bodyDecode (f : Json → Option α) (body : String) : Option α :=
  (parseJson body).bind f

/-! ### The non-streaming send paths -/

/-- `ChatCompletionRequest::send` (`src/chat/mod.rs` lines 318-338) after
the transport has answered: given whether `res.status().is_success()` and
the response body text, either decode the full `ChatCompletionResponse`, or
parse the error envelope and map it to `InvalidRequestError` with its
fields passed through.  A body that fails to decode surfaces the
`reqwest::Error` of `res.json()`, embedded as `ReqwestError`. -/
def chatCompletionSend (statusSuccess : Bool) (body : String) :
    Except ApiRequestError ChatCompletionResponse :=
  if statusSuccess then
    match bodyDecode ChatCompletionResponse.fromJson body with
    | some data => .ok data
    | none => .error (.ReqwestError "error decoding response body")
  else
    match bodyDecode ErrorResponse.fromJson body with
    | some er => .error (.InvalidRequestError er.error.message er.error.param er.error.code)
    | none => .error (.ReqwestError "error decoding response body")

/-- `SpeechRequest::send` (`src/audio/speech.rs` lines 132-152) after the
transport has answered: a success returns the raw body bytes untouched
(modelled by the body string itself); otherwise the error envelope is parsed
and mapped exactly as in `chatCompletionSend`. -/
def speechSend (statusSuccess : Bool) (body : String) :
    Except ApiRequestError String :=
  if statusSuccess then .ok body
  else
    match bodyDecode ErrorResponse.fromJson body with
    | some er => .error (.InvalidRequestError er.error.message er.error.param er.error.code)
    | none => .error (.ReqwestError "error decoding response body")

/-! ### The speech request builder (`src/audio/speech.rs`) -/

/-- `ResponseFormat` of `src/audio/speech.rs` lines 11-18 (the chat module's
type of the same name is not embedded). -/
inductive ResponseFormat where
  | MP3
  | AAC
  | FLAC
  | OPUS
deriving DecidableEq

/-- The `OpenAi` client handle (`src/lib.rs`); only its presence matters to
the builder, so the HTTP client is not modelled. -/
structure OpenAi where
  api_key : String

/-- `MAX_INPUT_LENGTH` (`src/audio/speech.rs` line 6). -/
def MAX_INPUT_LENGTH : Nat := 4096

/-- `MIN_SPEED` (`src/audio/speech.rs` line 7); the `f32` bounds are exact
in `Rat`. -/
def MIN_SPEED : Rat := 1 / 4

/-- `MAX_SPEED` (`src/audio/speech.rs` line 8). -/
def MAX_SPEED : Rat := 4

/-- `SpeechRequest` (`src/audio/speech.rs` lines 21-31). -/
structure SpeechRequest where
  model : String
  input : String
  voice : String
  response_format : ResponseFormat
  speed : Option Rat
  openai : OpenAi

/-- `SpeechRequestBuilder` (`src/audio/speech.rs` lines 33-41). -/
structure SpeechRequestBuilder where
  model : Option String
  input : Option String
  voice : Option String
  response_format : Option ResponseFormat
  speed : Option Rat
  openai : Option OpenAi

/-- `SpeechRequestBuilderError` (`src/audio/speech.rs` lines 43-59). -/
inductive SpeechRequestBuilderError where
  | TextTooLong
  | SpeedOutOfRange
  | ModelNotSet
  | ClientNotSet
  | ResponseFormatNotSet
  | InputNotSet
  | VoiceNotSet
deriving DecidableEq

/-- `SpeechRequestBuilder::build` (`src/audio/speech.rs` lines 89-121).  The
first statement is `self.input.as_ref().unwrap().len() > MAX_INPUT_LENGTH`:
when `input` is unset the `unwrap()` panics, modelled by the outer `none`.
The later `let Some(input) = self.input else ...` check is kept in source
order even though it can no longer fail.  `len()` is the UTF-8 byte length. -/
def SpeechRequestBuilder.build (b : SpeechRequestBuilder) :
    Option (Except SpeechRequestBuilderError SpeechRequest) :=
  match b.input with
  | none => none
  | some inp =>
    if inp.utf8ByteSize > MAX_INPUT_LENGTH then some (.error .TextTooLong)
    else if (match b.speed with
             | some speed => decide (¬ (MIN_SPEED ≤ speed ∧ speed ≤ MAX_SPEED))
             | none => false) then some (.error .SpeedOutOfRange)
    else
      match b.model with
      | none => some (.error .ModelNotSet)
      | some model =>
        match b.input with
        | none => some (.error .InputNotSet)
        | some input =>
          match b.voice with
          | none => some (.error .VoiceNotSet)
          | some voice =>
            match b.response_format with
            | none => some (.error .ResponseFormatNotSet)
            | some rf =>
              match b.openai with
              | none => some (.error .ClientNotSet)
              | some openai =>
                some (.ok ⟨model, input, voice, rf, b.speed, openai⟩)

/-! ### The frame decoder of the specification

Modelled from the spec: the frame decoder — the component that classifies a
raw textual frame into candidate events, the sentinel, or a malformed-event
error — is not present under `src/`; raw-frame decoding is delegated to the
external `reqwest_eventsource` dependency.  The definitions below follow
section 4.2 of the specification verbatim: an empty frame yields nothing; a
frame starting with the literal `"data: "` is split on the double-newline
delimiter, empty sub-messages and the sentinel sub-message `"data: [DONE]"`
are discarded, and the six-character marker is stripped from each remaining
sub-message; any other frame yields a single malformed-event error whose
message embeds the offending text. -/

/-- An output item of the spec's frame decoder: a candidate JSON payload or
a malformed-event error. -/
inductive FrameItem where
  | candidate (text : String)
  | malformedEvent (message : String)
deriving DecidableEq

/-- Whether the first list is an initial segment of the second (the
character-level test behind `str.starts_with`). -/
def leadsWith : List Char → List Char → Bool
  | [], _ => true
  | _ :: _, [] => false
  | m :: ms, c :: cs => m == c && leadsWith ms cs

/-- Whether `text` starts with the literal marker `"data: "`. -/
def startsWithData (text : String) : Bool :=
  leadsWith "data: ".data text.data

/-- Modelled from the spec: classification of one textual frame (spec
section 4.2), missing from `src/`. -/
def decodeFrame (text : String) : List FrameItem :=
  if text = "" then []
  else if startsWithData text then
    (((text.splitOn "\n\n").filter (fun m => m != "")).filter
        (fun m => m != "data: [DONE]")).map
      (fun m => FrameItem.candidate (m.drop 6))
  else [FrameItem.malformedEvent ("Invalid event data: " ++ text)]

/-- Modelled from the spec: the decoder applied to a whole frame sequence —
each frame expands independently and processing continues with the next
frame (spec sections 4.2 and 8), missing from `src/`. -/
def decodeFrames : List String → List FrameItem
  | [] => []
  | f :: fs => decodeFrame f ++ decodeFrames fs

/-! ### Concrete stream fixtures -/

/-- An event payload whose every delta content is the empty string. -/
def emptyDeltaData : String :=
  "\x7b\"id\":\"chunk-1\",\"choices\":[\x7b\"index\":0,\"delta\":\x7b\"content\":\"\"\x7d\x7d],\"created\":1,\"model\":\"gpt\",\"system_fingerprint\":\"fp\",\"object\":\"chat.completion.chunk\"\x7d"

/-- The decoded form of `emptyDeltaData`. -/
def emptyDeltaChunk : ChatCompletionChunkResponse :=
  ⟨"chunk-1", [⟨0, ⟨some ""⟩, none, none⟩], 1, "gpt", "fp", "chat.completion.chunk"⟩

/-- An event payload with delta content `"hello"`. -/
def helloData : String :=
  "\x7b\"id\":\"chunk-2\",\"choices\":[\x7b\"index\":0,\"delta\":\x7b\"content\":\"hello\"\x7d\x7d],\"created\":2,\"model\":\"gpt\",\"system_fingerprint\":\"fp\",\"object\":\"chat.completion.chunk\"\x7d"

/-- The decoded form of `helloData`. -/
def helloChunk : ChatCompletionChunkResponse :=
  ⟨"chunk-2", [⟨0, ⟨some "hello"⟩, none, none⟩], 2, "gpt", "fp", "chat.completion.chunk"⟩

/-- An event payload with delta content `"world"`. -/
def worldData : String :=
  "\x7b\"id\":\"chunk-3\",\"choices\":[\x7b\"index\":0,\"delta\":\x7b\"content\":\"world\"\x7d\x7d],\"created\":3,\"model\":\"gpt\",\"system_fingerprint\":\"fp\",\"object\":\"chat.completion.chunk\"\x7d"

/-- The decoded form of `worldData`. -/
def worldChunk : ChatCompletionChunkResponse :=
  ⟨"chunk-3", [⟨0, ⟨some "world"⟩, none, none⟩], 3, "gpt", "fp", "chat.completion.chunk"⟩

/-- The two string payloads the loop treats specially are not decodable
chunks, so a decodable payload is distinct from both. -/
theorem chunkFromStr_done_eq_none : chunkFromStr "[DONE]" = none := rfl

/-- The empty payload is not a decodable chunk. -/
theorem chunkFromStr_empty_eq_none : chunkFromStr "" = none := rfl

/-- Claim C1 (counterexample): a successfully parsed chunk in which every
choice's delta content is present and equal to the empty string is NOT
suppressed — the loop yields it to the caller. -/
theorem empty_delta_chunk_is_yielded :
    chunkFromStr emptyDeltaData = some emptyDeltaChunk ∧
    (emptyDeltaChunk.choices ≠ [] ∧
      emptyDeltaChunk.choices.all (fun c => c.delta.content == some "") = true) ∧
    streamLoop [.ok (.message emptyDeltaData)] = [emptyDeltaChunk] :=
  ⟨rfl, ⟨by simp [emptyDeltaChunk], rfl⟩, rfl⟩

/-- Claim C1 (amended): the loop applies no empty-delta filtering — every
successfully parsed chunk is yielded to the caller, whatever its delta
contents; in particular a chunk with content `"hello"` is yielded. -/
theorem stream_yields_every_parsed_chunk
    (data : String) (chunk : ChatCompletionChunkResponse) (rest : List EsItem)
    (h : chunkFromStr data = some chunk) :
    streamLoop (.ok (.message data) :: rest) = chunk :: streamLoop rest := by
  have hd : data ≠ "[DONE]" := by
    intro e
    rw [e, chunkFromStr_done_eq_none] at h
    exact Option.noConfusion h
  have he : data ≠ "" := by
    intro e
    rw [e, chunkFromStr_empty_eq_none] at h
    exact Option.noConfusion h
  simp [streamLoop, hd, he, h]

/-- Claim C1 (witness): the amended theorem at the `"hello"` payload. -/
theorem stream_yields_every_parsed_chunk_witness :
    streamLoop [.ok (.message helloData)] = [helloChunk] := by
  rw [stream_yields_every_parsed_chunk helloData helloChunk [] rfl]
  rfl

/-- Claim C2 (counterexample): a candidate event that fails to deserialize
produces NO stream item at all — the failure is printed and dropped, and the
stream continues with subsequent events. -/
theorem undecodable_event_yields_no_item :
    chunkFromStr "not json" = none ∧
    streamLoop [.ok (.message "not json")] = [] ∧
    streamLoop [.ok (.message "not json"), .ok (.message helloData)] = [helloChunk] :=
  ⟨rfl, rfl, rfl⟩

/-- Claim C2 (amended): an event whose JSON text fails to deserialize into
`ChatCompletionChunkResponse` is logged and dropped — nothing is sent over
the channel for it — and the loop continues with the remaining events. -/
theorem stream_drops_undecodable_events
    (data : String) (rest : List EsItem)
    (h : chunkFromStr data = none) (hd : data ≠ "[DONE]") :
    streamLoop (.ok (.message data) :: rest) = streamLoop rest := by
  by_cases he : data = ""
  · simp [streamLoop, he]
  · simp [streamLoop, hd, he, h]

/-- Claim C2 (witness): the amended theorem at the payload `"garbage"`. -/
theorem stream_drops_undecodable_events_witness :
    streamLoop [.ok (.message "garbage"), .ok (.message worldData)] =
      streamLoop [.ok (.message worldData)] :=
  stream_drops_undecodable_events "garbage" [.ok (.message worldData)] rfl
    (by decide)

/-- Claim C3 (counterexample): after two valid chunks and a connection
reset, the output holds no error item, and the stream does not end — a chunk
arriving after the reset is still yielded. -/
theorem transport_error_not_yielded_stream_continues :
    streamLoop
      [.ok (.message helloData), .ok (.message worldData),
       .err "connection reset", .ok (.message emptyDeltaData)] =
      [helloChunk, worldChunk, emptyDeltaChunk] :=
  rfl

/-- Claim C3 (amended): a transport-level failure arriving mid-stream is
printed and dropped — it is never yielded as a stream item and does not
terminate the loop, which keeps consuming subsequent events. -/
theorem stream_skips_transport_errors (e : String) (rest : List EsItem) :
    streamLoop (.err e :: rest) = streamLoop rest :=
  rfl

/-- Claim C5: a `"[DONE]"` message sends nothing to the consumer and closes
the event source, ending the loop (no later item is processed); an empty
message sends nothing but the loop continues. -/
theorem sentinel_terminates_and_empty_event_continues (rest : List EsItem) :
    streamLoop (.ok (.message "[DONE]") :: rest) = [] ∧
    streamLoop (.ok (.message "") :: rest) = streamLoop rest :=
  ⟨rfl, rfl⟩

/-- Claim C4 (spec-modelled): a non-empty textual frame that does not start
with `"data: "` expands to exactly one malformed-event error item whose
message embeds the offending text verbatim, and decoding continues with the
following frames. -/
theorem malformed_frame_yields_one_error_item
    (text : String) (rest : List String)
    (hne : text ≠ "") (hp : startsWithData text = false) :
    decodeFrames (text :: rest) =
      .malformedEvent ("Invalid event data: " ++ text) :: decodeFrames rest := by
  simp [decodeFrames, decodeFrame, hne, hp]

/-- Claim C4 (witness): the spec's own scenario, the frame
`"not an event"`. -/
theorem malformed_frame_yields_one_error_item_witness :
    decodeFrames ["not an event"] =
      [.malformedEvent ("Invalid event data: " ++ "not an event")] :=
  malformed_frame_yields_one_error_item "not an event" [] (by decide) rfl

/-- The documented chunk shape with `system_fingerprint` left out. -/
def chunkJsonNoFingerprint : Json :=
  .obj [("id", .str "1"),
        ("object", .str "chat.completion.chunk"),
        ("created", .num 1),
        ("model", .str "gpt"),
        ("choices", .arr [.obj [("index", .num 0),
                                ("delta", .obj [("content", .str "Hi")])]])]

/-- Claim C6 (counterexample): a chunk JSON event of the documented shape
that omits `system_fingerprint` does NOT deserialize — the field is a
required `String` in the source, not an `Option`. -/
theorem chunk_missing_fingerprint_rejected :
    ChatCompletionChunkResponse.fromJson chunkJsonNoFingerprint = none :=
  rfl

/-- Claim C6 (amended): `system_fingerprint` is required.  For the
documented event shape, deserialization succeeds when the field is present
as a string and fails when the very same event omits it. -/
theorem fingerprint_required_for_chunk_decode
    (id fp model ob s : String) (created n : Nat) :
    ChatCompletionChunkResponse.fromJson
        (.obj [("id", .str id),
               ("object", .str ob),
               ("created", .num (Int.ofNat created)),
               ("model", .str model),
               ("system_fingerprint", .str fp),
               ("choices", .arr [.obj [("index", .num (Int.ofNat n)),
                                       ("delta", .obj [("content", .str s)])]])]) =
      some ⟨id, [⟨n, ⟨some s⟩, none, none⟩], created, model, fp, ob⟩ ∧
    ChatCompletionChunkResponse.fromJson
        (.obj [("id", .str id),
               ("object", .str ob),
               ("created", .num (Int.ofNat created)),
               ("model", .str model),
               ("choices", .arr [.obj [("index", .num (Int.ofNat n)),
                                       ("delta", .obj [("content", .str s)])]])]) =
      none :=
  ⟨rfl, rfl⟩

/-- Claim C9: `SpeechRequestBuilder::build` unwraps `input` before any
presence check, so an unset `input` panics (the `none` outcome) and the
`InputNotSet` error is unreachable: no builder state makes `build` return
it. -/
theorem speech_build_never_returns_input_not_set :
    (∀ b : SpeechRequestBuilder, b.input = none → b.build = none) ∧
    (∀ b : SpeechRequestBuilder,
      b.build ≠ some (.error SpeechRequestBuilderError.InputNotSet)) := by
  constructor
  · intro b h
    simp [SpeechRequestBuilder.build, h]
  · intro b
    rcases hb : b.input with _ | inp
    · simp [SpeechRequestBuilder.build, hb]
    · simp only [SpeechRequestBuilder.build, hb]
      repeat' split
      all_goals simp

/-- Claim C9 (witness): the default builder state (everything unset) makes
`build` panic rather than return `InputNotSet`. -/
theorem speech_build_never_returns_input_not_set_witness :
    SpeechRequestBuilder.build ⟨none, none, none, none, none, none⟩ = none :=
  speech_build_never_returns_input_not_set.1 ⟨none, none, none, none, none, none⟩ rfl

/-- The concatenation, in choice-list order, of each choice's delta content,
an absent content contributing the empty string — the specification-side
reading of the `From` impl. -/
def concatDeltaContents : List ChoiceStreamed → String
  | [] => ""
  | c :: cs => c.delta.content.getD "" ++ concatDeltaContents cs

/-- String append is associative (proved on the underlying character
lists). -/
theorem string_append_assoc (a b c : String) : a ++ b ++ c = a ++ (b ++ c) := by
  rcases a with ⟨la⟩
  rcases b with ⟨lb⟩
  rcases c with ⟨lc⟩
  show String.mk (la ++ lb ++ lc) = String.mk (la ++ (lb ++ lc))
  rw [List.append_assoc]

/-- The collecting fold of `chunkToString`, started from any accumulator,
appends the in-order concatenation of the delta contents. -/
theorem foldl_concat_delta (l : List ChoiceStreamed) :
    ∀ acc : String,
      l.foldl (fun acc c => acc ++ c.delta.content.getD "") acc =
        acc ++ concatDeltaContents l := by
  induction l with
  | nil => intro acc; simp [concatDeltaContents]
  | cons c cs ih =>
    intro acc
    simp only [List.foldl_cons, concatDeltaContents, ih, string_append_assoc]

/-- The empty string is a left identity for append. -/
theorem string_empty_append (s : String) : "" ++ s = s := by
  rcases s with ⟨l⟩
  show String.mk ([] ++ l) = String.mk l
  rw [List.nil_append]

/-- Claim C10: converting a streamed chunk to a `String` yields the
concatenation, in choice-list order, of each choice's delta content, a
`None` content contributing the empty string. -/
theorem chunk_to_string_concats_delta_contents (r : ChatCompletionChunkResponse) :
    chunkToString r = concatDeltaContents r.choices := by
  rw [chunkToString, foldl_concat_delta, string_empty_append]

/-! ### Non-streaming send fixtures -/

/-- A full successful chat-completion response body. -/
def chatResponseBody : String :=
  "\x7b\"id\":\"resp-1\",\"choices\":[\x7b\"index\":0,\"message\":\x7b\"role\":\"assistant\",\"content\":[\x7b\"type\":\"text\",\"text\":\"hi\"\x7d],\"refusal\":null\x7d,\"finish_reason\":\"stop\",\"logprobs\":null\x7d],\"created\":7,\"model\":\"gpt\",\"system_fingerprint\":\"fp\",\"object\":\"chat.completion\",\"usage\":\x7b\"prompt_tokens\":1,\"completion_tokens\":2,\"total_tokens\":3\x7d\x7d"

/-- The decoded form of `chatResponseBody`. -/
def chatResponseValue : ChatCompletionResponse :=
  ⟨"resp-1",
   [⟨0, .Assistant ⟨[.Text ⟨"hi"⟩], none, none, none⟩, .Stop, none⟩],
   7, "gpt", "fp", "chat.completion", ⟨1, 2, 3⟩⟩

/-- An error envelope body of the documented shape. -/
def errorEnvelopeBody : String :=
  "\x7b\"error\":\x7b\"message\":\"bad request\",\"param\":\"temperature\",\"code\":\"invalid\"\x7d\x7d"

/-- Claim C7: a success status returns the decoded response body (the raw
bytes for the speech endpoint), and any other status parses the body as the
error envelope and returns an `InvalidRequestError` carrying its message,
param and code verbatim. -/
theorem send_decodes_success_and_maps_error_envelope :
    (∀ (body : String) (resp : ChatCompletionResponse),
      bodyDecode ChatCompletionResponse.fromJson body = some resp →
      chatCompletionSend true body = .ok resp) ∧
    (∀ (body msg : String) (param code : Option String),
      bodyDecode ErrorResponse.fromJson body = some ⟨⟨msg, param, code⟩⟩ →
      chatCompletionSend false body = .error (.InvalidRequestError msg param code)) ∧
    (∀ body : String, speechSend true body = .ok body) ∧
    (∀ (body msg : String) (param code : Option String),
      bodyDecode ErrorResponse.fromJson body = some ⟨⟨msg, param, code⟩⟩ →
      speechSend false body = .error (.InvalidRequestError msg param code)) := by
  refine ⟨?_, ?_, ?_, ?_⟩
  · intro body resp h
    simp [chatCompletionSend, h]
  · intro body msg param code h
    simp [chatCompletionSend, h]
  · intro body
    rfl
  · intro body msg param code h
    simp [speechSend, h]

/-- Claim C7 (witness): the send paths at a concrete successful body and a
concrete error envelope. -/
theorem send_decodes_success_and_maps_error_envelope_witness :
    chatCompletionSend true chatResponseBody = .ok chatResponseValue ∧
    chatCompletionSend false errorEnvelopeBody =
      .error (.InvalidRequestError "bad request" (some "temperature") (some "invalid")) ∧
    speechSend false errorEnvelopeBody =
      .error (.InvalidRequestError "bad request" (some "temperature") (some "invalid")) :=
  ⟨send_decodes_success_and_maps_error_envelope.1 chatResponseBody chatResponseValue rfl,
   send_decodes_success_and_maps_error_envelope.2.1 errorEnvelopeBody
     "bad request" (some "temperature") (some "invalid") rfl,
   send_decodes_success_and_maps_error_envelope.2.2.2 errorEnvelopeBody
     "bad request" (some "temperature") (some "invalid") rfl⟩

/-! ### Round-tripping the streamed chunk encoding -/

/-- Optional string fields survive the encode/decode pair. -/
theorem getOptStr_optStrToJson (o : Option String) :
    getOptStr (some (optStrToJson o)) = some o := by
  cases o <;> rfl

/-- Optional finish reasons survive the encode/decode pair. -/
theorem getOptFinishReason_toJson (o : Option FinishReason) :
    getOptFinishReason (some (optFinishReasonToJson o)) = some o := by
  rcases o with _ | fr
  · rfl
  · cases fr <;> rfl

/-- Optional JSON payloads survive the encode/decode pair, except for
`Some(Value::Null)`: its encoding is indistinguishable from `None`. -/
theorem getOptValue_toJson (o : Option Json) (h : o ≠ some .null) :
    getOptValue (some (optValueToJson o)) = some o := by
  rcases o with _ | v
  · rfl
  · cases v
    · exact absurd rfl h
    all_goals rfl

/-- A `Delta` survives the encode/decode pair. -/
theorem delta_roundtrip (d : Delta) : Delta.fromJson d.toJson = some d := by
  obtain ⟨content⟩ := d
  cases content <;> rfl

/-- A `ChoiceStreamed` with no `Some(Value::Null)` logprobs survives the
encode/decode pair. -/
theorem choice_roundtrip (c : ChoiceStreamed) (h : c.logprobs ≠ some .null) :
    ChoiceStreamed.fromJson c.toJson = some c := by
  obtain ⟨idx, ⟨content⟩, fr, lp⟩ := c
  rcases content with _ | s <;> rcases fr with _ | fr <;> rcases lp with _ | lp <;>
    (try cases fr) <;> (try cases lp) <;> first | rfl | exact absurd rfl h

/-- A choice vector with no `Some(Value::Null)` logprobs survives the
encode/decode pair. -/
theorem choices_roundtrip (l : List ChoiceStreamed) :
    (∀ c ∈ l, c.logprobs ≠ some .null) →
    deserializeEach ChoiceStreamed.fromJson (l.map ChoiceStreamed.toJson) = some l := by
  induction l with
  | nil => intro _; rfl
  | cons c cs ih =>
    intro h
    have hc := choice_roundtrip c (h c (List.mem_cons_self c cs))
    have hcs := ih (fun x hx => h x (List.mem_cons_of_mem c hx))
    simp [deserializeEach, hc, hcs]

/-- Claim C8 (amended): encoding a `ChatCompletionChunkResponse` to JSON and
decoding it back yields the original value, provided no choice carries the
explicit JSON-null logprobs payload `Some(Value::Null)` (whose encoding
collapses to the encoding of `None`). -/
theorem chunk_roundtrip (r : ChatCompletionChunkResponse)
    (h : ∀ c ∈ r.choices, c.logprobs ≠ some .null) :
    ChatCompletionChunkResponse.fromJson r.toJson = some r := by
  obtain ⟨id, choices, created, model, fp, ob⟩ := r
  have hc : choicesFromJson (.arr (choices.map ChoiceStreamed.toJson)) = some choices := by
    simpa [choicesFromJson] using choices_roundtrip choices h
  simp [ChatCompletionChunkResponse.toJson, ChatCompletionChunkResponse.fromJson,
    Json.lookup, List.lookup, hc, getStr, getNat]

/-- A chunk whose single choice carries the logprobs payload
`Some(Value::Null)`. -/
def nullLogprobsChunk : ChatCompletionChunkResponse :=
  ⟨"1", [⟨0, ⟨some "hi"⟩, none, some .null⟩], 1, "m", "fp", "chunk"⟩

/-- Claim C8 (counterexample): the round trip is NOT the identity on every
value — a choice with logprobs `Some(Value::Null)` decodes back to `None`. -/
theorem null_logprobs_breaks_roundtrip :
    ChatCompletionChunkResponse.fromJson nullLogprobsChunk.toJson ≠
      some nullLogprobsChunk := by
  intro h
  have h2 : ChatCompletionChunkResponse.fromJson nullLogprobsChunk.toJson =
      some ⟨"1", [⟨0, ⟨some "hi"⟩, none, none⟩], 1, "m", "fp", "chunk"⟩ := rfl
  rw [h2] at h
  simp [nullLogprobsChunk] at h

/-- A chunk exercising both the populated and the absent optional fields. -/
def variedChunk : ChatCompletionChunkResponse :=
  ⟨"id7",
   [⟨2, ⟨none⟩, some .Stop, some (.num 3)⟩,
    ⟨3, ⟨some "x"⟩, some .ContentFilter, none⟩],
   42, "mdl", "fp9", "chat"⟩

/-- Claim C8 (witness): the amended round trip at a concrete chunk. -/
theorem chunk_roundtrip_witness :
    ChatCompletionChunkResponse.fromJson variedChunk.toJson = some variedChunk :=
  chunk_roundtrip variedChunk
    (by intro c hc; simp [variedChunk] at hc; rcases hc with rfl | rfl <;> simp)
